import Mathlib

/-!
Verification of the `laas-ladybug` Fix Fast analysis tools.

This file gives a shallow embedding of the deterministic analysis engines of
the repository (package `tools`): the keyword-based regression classifier
`DetectRegression` with its Wilson-score run-history confidence
(`tools/detect.go`), the cost-based triage engine `TriageIssue` with its
shift-left recommendation (`tools/triage.go`), and the playbook-based
fix-plan generator `GenerateFixPlan` (`tools/triage.go`).

Strings are modelled with Lean strings and character lists (Go operates on
ASCII byte strings here), Go `float64` arithmetic is modelled over the exact
fields `ℚ` and `ℝ` (every triage quantity is exactly representable; the
Wilson bound needs a real square root), and the JSON boundary is out of
scope: each engine is embedded as the total Lean function it computes on an
already-decoded input record.
-/

namespace LaasLadybug

/-- The `RegressionType` string constants of `tools/detect.go`. -/
inductive RegressionType where
  | nullPointer
  | performance
  | crash
  | memoryLeak
  | logicError
  | dataCorruption
  | apiBreakingChange
  | securityFlaw
  | unknown
deriving DecidableEq, Repr

/-- The `Severity` string constants of `tools/detect.go`. -/
inductive Severity where
  | critical
  | high
  | medium
  | low
deriving DecidableEq, Repr

/-- One row of the `regressionSignals` table of `tools/detect.go`:
keywords, regression type, severity and indicator label. -/
structure Signal where
  keywords : List String
  regrType : RegressionType
  severity : Severity
  indicator : String
deriving DecidableEq, Repr

/-- Row 1 of `regressionSignals` (null/nil dereference). -/
def nullPointerSignal : Signal :=
  { keywords := ["null", "nil", "npe", "nullpointerexception", "nil pointer", "null reference"]
    regrType := RegressionType.nullPointer
    severity := Severity.high
    indicator := "Null/nil dereference pattern" }

/-- Row 2 of `regressionSignals` (application crash). -/
def crashSignal : Signal :=
  { keywords := ["panic", "crash", "segfault", "sigsegv", "abort", "fatal error"]
    regrType := RegressionType.crash
    severity := Severity.critical
    indicator := "Application crash signal" }

/-- Row 3 of `regressionSignals` (performance degradation). -/
def performanceSignal : Signal :=
  { keywords := ["slow", "latency", "timeout", "performance", "memory usage", "cpu spike", "throughput"]
    regrType := RegressionType.performance
    severity := Severity.medium
    indicator := "Performance degradation signal" }

/-- Row 4 of `regressionSignals` (memory leak). -/
def memoryLeakSignal : Signal :=
  { keywords := ["memory leak", "oom", "out of memory", "heap", "alloc", "gc pressure"]
    regrType := RegressionType.memoryLeak
    severity := Severity.high
    indicator := "Memory leak indicator" }

/-- Row 5 of `regressionSignals` (logic error). -/
def logicErrorSignal : Signal :=
  { keywords := ["wrong result", "incorrect", "unexpected value", "off by one", "logic", "calculation"]
    regrType := RegressionType.logicError
    severity := Severity.medium
    indicator := "Logic error pattern" }

/-- Row 6 of `regressionSignals` (data corruption). -/
def dataCorruptSignal : Signal :=
  { keywords := ["corrupt", "data loss", "inconsistent state", "transaction", "atomic"]
    regrType := RegressionType.dataCorruption
    severity := Severity.critical
    indicator := "Data integrity concern" }

/-- Row 7 of `regressionSignals` (API breaking change). -/
def apiBreakingSignal : Signal :=
  { keywords := ["breaking change", "api change", "interface", "signature", "deprecated", "removed method"]
    regrType := RegressionType.apiBreakingChange
    severity := Severity.high
    indicator := "API contract violation" }

/-- Row 8 of `regressionSignals` (security flaw). -/
def securityFlawSignal : Signal :=
  { keywords := ["sql injection", "xss", "csrf", "auth bypass", "privilege", "cve", "vulnerability"]
    regrType := RegressionType.securityFlaw
    severity := Severity.critical
    indicator := "Security vulnerability signal" }

/-- The `regressionSignals` slice of `tools/detect.go`, in its defined order. -/
def regressionSignals : List Signal :=
  [nullPointerSignal, crashSignal, performanceSignal, memoryLeakSignal,
   logicErrorSignal, dataCorruptSignal, apiBreakingSignal, securityFlawSignal]

/-- The value `len(regressionSignals[0].keywords)` used as the fixed
confidence denominator offset in `DetectRegression`. -/
def firstRowKeywordCount : ℕ :=
  match regressionSignals with
  | sig :: _ => sig.keywords.length
  | [] => 0

/-- The decoded `DetectRegressionInput` struct of `tools/detect.go`.
A `none` run history models the JSON field being absent (Go `nil` slice);
`some []` models a supplied zero-length array. -/
structure DetectRegressionInput where
  description : String
  filesChanged : List String
  environment : String
  errorMessage : String
  runHistory : Option (List String)

/-- The `RunHistoryStats` struct of `tools/detect.go`. The flake flag is the
truth value of the Go boolean `statConf < 0.4` (computed from the unrounded
Wilson bound, exactly as in the source). -/
structure RunHistoryStats where
  totalRuns : ℕ
  failureCount : ℕ
  failureRate : ℝ
  statConfidence : ℝ
  isLikelyFlake : Prop

/-- The summary string built at the end of `DetectRegression`, modelled
structurally: `detected sev ty env stats` stands for the text
"Detected a <sev> <ty> regression found in <env> environment." followed,
when stats are present, by the formatted run-history sentence; `noPattern`
stands for the text "No clear regression patterns detected. Manual review
recommended.". Only the float formatting of the detected branch is
abstracted by this constructor representation. -/
inductive Summary where
  | detected (severity : Severity) (regrType : RegressionType)
      (environment : String) (runStats : Option RunHistoryStats)
  | noPattern

/-- The `DetectRegressionOutput` struct of `tools/detect.go`. -/
structure DetectRegressionOutput where
  isRegression : Bool
  regressionType : RegressionType
  severity : Severity
  affectedComponents : List String
  indicators : List String
  confidence : ℝ
  runStats : Option RunHistoryStats
  summary : Summary

/-- Substring test on character lists: Go `strings.Contains(s, pat)`.
Scans every suffix of `s` for `pat` as a prefix. -/
def charListContains : List Char → List Char → Bool
  | _, [] => true
  | [], _ :: _ => false
  | c :: srest, pat@(_ :: _) => pat.isPrefixOf (c :: srest) || charListContains srest pat

/-- The lowercased haystack `strings.ToLower(input.Description + " " + input.ErrorMessage)`
of `DetectRegression`, as a character list. -/
def lowerDesc (input : DetectRegressionInput) : List Char :=
  ((input.description ++ " " ++ input.errorMessage).toList).map Char.toLower

/-- Number of keywords of a signal row occurring in the haystack: the inner
counting loop of `DetectRegression`. -/
def matchCount (desc : List Char) (sig : Signal) : ℕ :=
  sig.keywords.countP (fun kw => charListContains desc kw.toList)

/-- One iteration of the scoring loop of `DetectRegression`: a row with a
positive match count becomes a candidate paired with that count. -/
def scoreRow (desc : List Char) (sig : Signal) : Option (Signal × ℕ) :=
  let count := matchCount desc sig
  if 0 < count then some (sig, count) else none

/-- The `scores` slice of `DetectRegression`: each signal row with a positive
match count, paired with that count, in table order. -/
def scoredRows (desc : List Char) : List (Signal × ℕ) :=
  regressionSignals.filterMap (scoreRow desc)

/-- One step of the best-score selection loop of `DetectRegression`:
replace the current best only on a strictly greater score. -/
def pickStep (best s : Signal × ℕ) : Signal × ℕ :=
  if best.2 < s.2 then s else best

/-- The best-score selection of `DetectRegression`: start from the first
candidate and keep any strictly higher-scoring later candidate. -/
def pickBest : List (Signal × ℕ) → Option (Signal × ℕ)
  | [] => none
  | h :: t => some (t.foldl pickStep h)

/-- The confidence clamping of `DetectRegression`: first pull values above
0.9 down to 0.9, then pull values below 0.3 up to 0.3 (in source order). -/
noncomputable def clampConf (x : ℝ) : ℝ :=
  let x₁ := if 0.9 < x then 0.9 else x
  if x₁ < 0.3 then 0.3 else x₁

/-- The winning candidate of the keyword scoring stage for a given input. -/
def bestOf (input : DetectRegressionInput) : Option (Signal × ℕ) :=
  pickBest (scoredRows (lowerDesc input))

/-- The keyword-derived confidence of `DetectRegression`: zero when no row
matched, otherwise the winning score over `len(regressionSignals[0].keywords) + 3`,
clamped to [0.3, 0.9]. -/
noncomputable def keywordConfidence (input : DetectRegressionInput) : ℝ :=
  match bestOf input with
  | none => 0
  | some b => clampConf ((b.2 : ℝ) / ((firstRowKeywordCount : ℝ) + 3))

/-- Whitespace trimming on character lists: Go `strings.TrimSpace`. -/
def trimChars (l : List Char) : List Char :=
  ((l.dropWhile Char.isWhitespace).reverse.dropWhile Char.isWhitespace).reverse

/-- The failure counting loop of `DetectRegression`: an entry counts when it
equals "fail" after trimming and lowercasing. -/
def failCount (runs : List String) : ℕ :=
  runs.countP (fun r => (trimChars r.toList).map Char.toLower == "fail".toList)

/-- The `wilsonLowerBound` function of `tools/detect.go`: lower bound of the
Wilson score confidence interval, 0 when the total is 0, and clamped below
at 0. -/
noncomputable def wilsonLowerBound (successes total : ℕ) (z : ℝ) : ℝ :=
  if total = 0 then 0
  else
    let p : ℝ := (successes : ℝ) / (total : ℝ)
    let n : ℝ := (total : ℝ)
    let z2 : ℝ := z * z
    let num : ℝ := p + z2 / (2 * n) - z * Real.sqrt (p * (1 - p) / n + z2 / (4 * n * n))
    let den : ℝ := 1 + z2 / n
    let lb : ℝ := num / den
    if lb < 0 then 0 else lb

/-- The statistical confidence `statConf` of `DetectRegression`: the Wilson
lower bound at z = 1 over the observed run history. -/
noncomputable def runStatConfidence (runs : List String) : ℝ :=
  wilsonLowerBound (failCount runs) runs.length 1

/-- Go `math.Round(x*1000)/1000` as used for the reported rate and
confidence fields. Go rounds halves away from zero and Mathlib `round`
rounds halves up; the two agree on the nonnegative inputs produced here. -/
noncomputable def goRound3 (x : ℝ) : ℝ :=
  ((round (x * 1000) : ℤ) : ℝ) / 1000

/-- The `RunHistoryStats` record built by `DetectRegression` for a non-empty
run history. -/
noncomputable def computeRunStats (runs : List String) : RunHistoryStats :=
  { totalRuns := runs.length
    failureCount := failCount runs
    failureRate := goRound3 ((failCount runs : ℝ) / (runs.length : ℝ))
    statConfidence := goRound3 (runStatConfidence runs)
    isLikelyFlake := runStatConfidence runs < 0.4 }

/-- The run history slice seen by the Go code: an absent field decodes to a
`nil` slice, indistinguishable from an empty one under `len`. -/
def runsOf (input : DetectRegressionInput) : List String :=
  input.runHistory.getD []

/-- The component extraction of `DetectRegression`: the first path segment
when the path contains a separator, otherwise the whole path. -/
def firstSegment (f : String) : String :=
  let parts := f.splitOn "/"
  if 1 < parts.length then parts.headD "" else f

/-- The `deduplicate` helper of `tools/detect.go`: keep the first occurrence
of each string, preserving order. -/
def deduplicate (s : List String) : List String :=
  s.foldl (fun out v => if out.contains v then out else out ++ [v]) []

/-- The final `IsRegression` flag: true when some keyword row matched, or
when a non-empty run history contains at least one failure. -/
def isRegressionOf (input : DetectRegressionInput) : Bool :=
  (bestOf input).isSome
    || (decide (0 < (runsOf input).length) && decide (0 < failCount (runsOf input)))

/-- The final `Confidence` field of `DetectRegression`: the keyword
confidence, replaced by the statistical confidence capped at 0.95 when a
failure was observed and the statistical confidence strictly exceeds it, and
overridden to the fixed 0.2 in the no-regression summary branch. -/
noncomputable def confidenceOf (input : DetectRegressionInput) : ℝ :=
  let kw := keywordConfidence input
  let conf₁ :=
    if 0 < (runsOf input).length ∧ 0 < failCount (runsOf input) then
      if kw < runStatConfidence (runsOf input) then
        min (runStatConfidence (runsOf input)) 0.95
      else kw
    else kw
  if isRegressionOf input then conf₁ else 0.2

/-- The `DetectRegression` engine of `tools/detect.go` (after JSON decoding),
assembled field by field from the stages above, which mirror its sequential
mutation of the output record. -/
noncomputable def detectRegression (input : DetectRegressionInput) : DetectRegressionOutput :=
  { isRegression := isRegressionOf input
    regressionType :=
      match bestOf input with
      | none => RegressionType.unknown
      | some b => b.1.regrType
    severity :=
      match bestOf input with
      | none => Severity.low
      | some b => b.1.severity
    affectedComponents := deduplicate (input.filesChanged.map firstSegment)
    indicators := (scoredRows (lowerDesc input)).map (fun s => s.1.indicator)
    confidence := confidenceOf input
    runStats :=
      if 0 < (runsOf input).length then some (computeRunStats (runsOf input)) else none
    summary :=
      if isRegressionOf input then
        Summary.detected
          (match bestOf input with
           | none => Severity.low
           | some b => b.1.severity)
          (match bestOf input with
           | none => RegressionType.unknown
           | some b => b.1.regrType)
          input.environment
          (if 0 < (runsOf input).length then some (computeRunStats (runsOf input)) else none)
      else Summary.noPattern }

/-! ### Evaluation lemmas for the Wilson lower bound -/

/-- Closed form of the Wilson bound at z = 1 for a positive total. -/
lemma wilson_unfold (s t : ℕ) (ht : t ≠ 0) :
    wilsonLowerBound s t 1 =
      (if ((s : ℝ) / t + 1 / (2 * t) -
            Real.sqrt ((s : ℝ) / t * (1 - (s : ℝ) / t) / t + 1 / (4 * t * t))) / (1 + 1 / t) < 0
       then 0
       else ((s : ℝ) / t + 1 / (2 * t) -
            Real.sqrt ((s : ℝ) / t * (1 - (s : ℝ) / t) / t + 1 / (4 * t * t))) / (1 + 1 / t)) := by
  unfold wilsonLowerBound
  rw [if_neg ht]
  norm_num

/-- One failure in one run scores exactly 1/2. -/
lemma wilson_1_1 : wilsonLowerBound 1 1 1 = 1 / 2 := by
  rw [wilson_unfold 1 1 one_ne_zero]
  have hs : ((1 : ℕ) : ℝ) / ((1 : ℕ) : ℝ) * (1 - ((1 : ℕ) : ℝ) / ((1 : ℕ) : ℝ)) / ((1 : ℕ) : ℝ)
      + 1 / (4 * ((1 : ℕ) : ℝ) * ((1 : ℕ) : ℝ)) = ((1 : ℝ) / 2) ^ 2 := by
    push_cast; norm_num
  rw [hs, Real.sqrt_sq (by norm_num)]
  push_cast
  norm_num

/-- Two failures in two runs score exactly 2/3. -/
lemma wilson_2_2 : wilsonLowerBound 2 2 1 = 2 / 3 := by
  rw [wilson_unfold 2 2 two_ne_zero]
  have hs : ((2 : ℕ) : ℝ) / ((2 : ℕ) : ℝ) * (1 - ((2 : ℕ) : ℝ) / ((2 : ℕ) : ℝ)) / ((2 : ℕ) : ℝ)
      + 1 / (4 * ((2 : ℕ) : ℝ) * ((2 : ℕ) : ℝ)) = ((1 : ℝ) / 4) ^ 2 := by
    push_cast; norm_num
  rw [hs, Real.sqrt_sq (by norm_num)]
  push_cast
  norm_num

/-- Three failures in three runs score exactly 3/4. -/
lemma wilson_3_3 : wilsonLowerBound 3 3 1 = 3 / 4 := by
  rw [wilson_unfold 3 3 three_ne_zero]
  have hs : ((3 : ℕ) : ℝ) / ((3 : ℕ) : ℝ) * (1 - ((3 : ℕ) : ℝ) / ((3 : ℕ) : ℝ)) / ((3 : ℕ) : ℝ)
      + 1 / (4 * ((3 : ℕ) : ℝ) * ((3 : ℕ) : ℝ)) = ((1 : ℝ) / 6) ^ 2 := by
    push_cast; norm_num
  rw [hs, Real.sqrt_sq (by norm_num)]
  push_cast
  norm_num

/-- Rational lower bound for the square-root term shared by the 1-of-3 and
2-of-3 fixtures (the radicand is 11/108 in both cases). -/
lemma sqrt_term_lb : (0.3007 : ℝ) ≤ Real.sqrt (11 / 108) := by
  have h : (0.3007 : ℝ) = Real.sqrt ((0.3007 : ℝ) ^ 2) := (Real.sqrt_sq (by norm_num)).symm
  rw [h]
  exact Real.sqrt_le_sqrt (by norm_num)

/-- Rational upper bound for the square-root term of the 1-of-3 and 2-of-3
fixtures. -/
lemma sqrt_term_ub : Real.sqrt (11 / 108) ≤ (0.326 : ℝ) := by
  have h : (0.326 : ℝ) = Real.sqrt ((0.326 : ℝ) ^ 2) := (Real.sqrt_sq (by norm_num)).symm
  rw [h]
  exact Real.sqrt_le_sqrt (by norm_num)

/-- One failure in three runs scores within 0.01 of 0.14. -/
lemma wilson_1_3_bounds : |wilsonLowerBound 1 3 1 - 0.14| ≤ 0.01 := by
  rw [wilson_unfold 1 3 three_ne_zero]
  have hs : ((1 : ℕ) : ℝ) / ((3 : ℕ) : ℝ) * (1 - ((1 : ℕ) : ℝ) / ((3 : ℕ) : ℝ)) / ((3 : ℕ) : ℝ)
      + 1 / (4 * ((3 : ℕ) : ℝ) * ((3 : ℕ) : ℝ)) = (11 / 108 : ℝ) := by
    push_cast; norm_num
  rw [hs]
  have h1 := sqrt_term_lb
  have h2 := sqrt_term_ub
  have key : (((1 : ℕ) : ℝ) / ((3 : ℕ) : ℝ) + 1 / (2 * ((3 : ℕ) : ℝ)) -
        Real.sqrt (11 / 108)) / (1 + 1 / ((3 : ℕ) : ℝ))
      = (1 / 2 - Real.sqrt (11 / 108)) * (3 / 4) := by
    push_cast; ring
  rw [if_neg (by rw [key]; push_neg; nlinarith), key, abs_le]
  constructor <;> nlinarith

/-- Two failures in three runs score within 0.01 of 0.39. -/
lemma wilson_2_3_bounds : |wilsonLowerBound 2 3 1 - 0.39| ≤ 0.01 := by
  rw [wilson_unfold 2 3 three_ne_zero]
  have hs : ((2 : ℕ) : ℝ) / ((3 : ℕ) : ℝ) * (1 - ((2 : ℕ) : ℝ) / ((3 : ℕ) : ℝ)) / ((3 : ℕ) : ℝ)
      + 1 / (4 * ((3 : ℕ) : ℝ) * ((3 : ℕ) : ℝ)) = (11 / 108 : ℝ) := by
    push_cast; norm_num
  rw [hs]
  have h1 := sqrt_term_lb
  have h2 := sqrt_term_ub
  have key : (((2 : ℕ) : ℝ) / ((3 : ℕ) : ℝ) + 1 / (2 * ((3 : ℕ) : ℝ)) -
        Real.sqrt (11 / 108)) / (1 + 1 / ((3 : ℕ) : ℝ))
      = (5 / 6 - Real.sqrt (11 / 108)) * (3 / 4) := by
    push_cast; ring
  rw [if_neg (by rw [key]; push_neg; nlinarith), key, abs_le]
  constructor <;> nlinarith

/-- C1: the run-history confidence computed by the engine reproduces the
Wilson-lower-bound calibration fixtures within 0.01 — ["fail"] scores 0.50,
["fail","fail"] scores 0.67, ["fail","fail","fail"] scores 0.75,
["fail","pass","pass"] scores about 0.14 and ["fail","fail","pass"] about
0.39 — and for every run history the is_likely_flake flag of the computed
stats holds exactly when the statistical (Wilson lower bound) confidence is
below 0.4. -/
theorem wilson_calibration_fixtures :
    |runStatConfidence ["fail"] - 0.50| ≤ 0.01 ∧
    |runStatConfidence ["fail", "fail"] - 0.67| ≤ 0.01 ∧
    |runStatConfidence ["fail", "fail", "fail"] - 0.75| ≤ 0.01 ∧
    |runStatConfidence ["fail", "pass", "pass"] - 0.14| ≤ 0.01 ∧
    |runStatConfidence ["fail", "fail", "pass"] - 0.39| ≤ 0.01 ∧
    ∀ runs : List String,
      (computeRunStats runs).isLikelyFlake ↔ runStatConfidence runs < 0.4 := by
  refine ⟨?_, ?_, ?_, ?_, ?_, fun runs => Iff.rfl⟩
  · rw [show runStatConfidence ["fail"] = wilsonLowerBound 1 1 1 from rfl, wilson_1_1,
      abs_le]
    constructor <;> norm_num
  · rw [show runStatConfidence ["fail", "fail"] = wilsonLowerBound 2 2 1 from rfl, wilson_2_2,
      abs_le]
    constructor <;> norm_num
  · rw [show runStatConfidence ["fail", "fail", "fail"] = wilsonLowerBound 3 3 1 from rfl,
      wilson_3_3, abs_le]
    constructor <;> norm_num
  · rw [show runStatConfidence ["fail", "pass", "pass"] = wilsonLowerBound 1 3 1 from rfl]
    exact wilson_1_3_bounds
  · rw [show runStatConfidence ["fail", "fail", "pass"] = wilsonLowerBound 2 3 1 from rfl]
    exact wilson_2_3_bounds

/-! ### Triage engine (`tools/triage.go`) -/

/-- The `Priority` string constants of `tools/triage.go`. -/
inductive Priority where
  | P0
  | P1
  | P2
  | P3
deriving DecidableEq, Repr

/-- The decoded `TriageIssueInput` struct of `tools/triage.go`. -/
structure TriageIssueInput where
  regressionType : String
  severity : String
  environment : String
  affectedUsersEstimate : ℤ

/-- The arguments fed into the `CostRationale` format string of
`TriageIssue`, in source order; the rationale text is this record rendered
through `fmt.Sprintf`. -/
structure CostRationale where
  baseScore : ℚ
  multiplier : ℤ
  environment : String
  userImpactFactor : ℚ
  cpdScore : ℚ
  shiftLeftStage : String
  shiftLeftCost : ℚ
  costRatio : ℚ

/-- The `TriageIssueOutput` struct of `tools/triage.go`. -/
structure TriageIssueOutput where
  cpdScore : ℚ
  cpdMultiplier : ℤ
  priority : Priority
  recommendedAction : String
  shiftLeftTarget : String
  costRationale : CostRationale

/-- The `environmentMultiplier` map of `tools/triage.go`, as an association
list (only keyed lookups are performed on it). -/
def environmentMultiplier : List (String × ℤ) :=
  [("ide", 1), ("local_test", 3), ("ci", 10), ("code_review", 15),
   ("staging", 30), ("production", 100)]

/-- The `severityBaseScore` map of `tools/triage.go`. -/
def severityBaseScore : List (String × ℚ) :=
  [("critical", 100), ("high", 50), ("medium", 20), ("low", 5)]

/-- The `targets` map inside `shiftLeftTarget`, and its lookup with the
"ci" fallback for unrecognized environments. -/
def shiftLeftTargets : List (String × String) :=
  [("production", "staging"), ("staging", "ci"), ("ci", "local_test"),
   ("code_review", "local_test"), ("local_test", "ide"), ("ide", "ide")]

/-- The `shiftLeftTarget` function of `tools/triage.go`. -/
def shiftLeftTarget (env : String) : String :=
  (shiftLeftTargets.lookup env).getD "ci"

/-- The priority/action switch of `TriageIssue`, tried in source order. -/
def priorityAndAction (cpdScore : ℚ) : Priority × String :=
  if 5000 ≤ cpdScore then
    (Priority.P0, "Page on-call immediately. Revert or hotfix within 1 hour.")
  else if 1000 ≤ cpdScore then
    (Priority.P1, "Fix today. Assign to the last committer and block release if unresolved.")
  else if 200 ≤ cpdScore then
    (Priority.P2, "Schedule fix this sprint. Add to team backlog with owner assigned.")
  else
    (Priority.P3, "Add to backlog. Consider addressing during next refactoring cycle.")

/-- The `TriageIssue` engine of `tools/triage.go` (after JSON decoding).
Every floating-point quantity it computes is an exact rational, so the
arithmetic is carried out in `ℚ`. The direct map index
`environmentMultiplier[shiftLeft]` of the rationale (which would yield the
Go zero value 0 on a missing key) is modelled by `Option.getD 0`. -/
def triageIssue (input : TriageIssueInput) : TriageIssueOutput :=
  let multiplier : ℤ := (environmentMultiplier.lookup input.environment).getD 30
  let baseScore : ℚ := (severityBaseScore.lookup input.severity).getD 20
  let userImpactFactor : ℚ :=
    if 1000 < input.affectedUsersEstimate then 2
    else if 100 < input.affectedUsersEstimate then 3 / 2
    else 1
  let cpdScore : ℚ := baseScore * (multiplier : ℚ) * userImpactFactor
  let pa := priorityAndAction cpdScore
  let shiftLeft := shiftLeftTarget input.environment
  let shiftLeftCost : ℚ :=
    baseScore * (((environmentMultiplier.lookup shiftLeft).getD 0 : ℤ) : ℚ) * userImpactFactor
  { cpdScore := cpdScore
    cpdMultiplier := multiplier
    priority := pa.1
    recommendedAction := pa.2
    shiftLeftTarget := shiftLeft
    costRationale :=
      { baseScore := baseScore
        multiplier := multiplier
        environment := input.environment
        userImpactFactor := userImpactFactor
        cpdScore := cpdScore
        shiftLeftStage := shiftLeft
        shiftLeftCost := shiftLeftCost
        costRatio := cpdScore / shiftLeftCost } }

/-! ### Spec-side lookup tables, written as the specification enumerates
them, for comparison with the association-list lookups of the source. -/

/-- The environment multiplier as the spec states it: a six-entry table with
default 30 for an unknown environment. -/
def specEnvMultiplier (e : String) : ℤ :=
  if e = "ide" then 1
  else if e = "local_test" then 3
  else if e = "ci" then 10
  else if e = "code_review" then 15
  else if e = "staging" then 30
  else if e = "production" then 100
  else 30

/-- The severity base score as the spec states it: a four-entry table with
default 20 for an unknown severity. -/
def specSeverityBase (s : String) : ℚ :=
  if s = "critical" then 100
  else if s = "high" then 50
  else if s = "medium" then 20
  else if s = "low" then 5
  else 20

/-- The user-impact factor as the spec states it. -/
def specUserImpact (u : ℤ) : ℚ :=
  if 1000 < u then 2 else if 100 < u then 3 / 2 else 1

/-- The six known environment names. -/
def knownEnvironments : List String :=
  ["ide", "local_test", "ci", "code_review", "staging", "production"]

/-- Urgency rank of a priority: P0 is the most urgent (rank 0), P3 the
least (rank 3). -/
def urgencyRank : Priority → ℕ
  | Priority.P0 => 0
  | Priority.P1 => 1
  | Priority.P2 => 2
  | Priority.P3 => 3

/-! ### Lemmas relating the triage lookups to the spec tables -/

/-- The environment-multiplier lookup with default 30 agrees with the
spec table for every environment string. -/
lemma env_lookup_eq (e : String) :
    ((environmentMultiplier.lookup e).getD 30 : ℤ) = specEnvMultiplier e := by
  simp only [environmentMultiplier, specEnvMultiplier, List.lookup]
  repeat' split
  all_goals simp_all [beq_iff_eq]

/-- The severity-base-score lookup with default 20 agrees with the spec
table for every severity string. -/
lemma sev_lookup_eq (s : String) :
    ((severityBaseScore.lookup s).getD 20 : ℚ) = specSeverityBase s := by
  simp only [severityBaseScore, specSeverityBase, List.lookup]
  repeat' split
  all_goals simp_all [beq_iff_eq]

/-- The sequential priority switch realizes the four half-open cost bands. -/
lemma priority_cases (c : ℚ) :
    ((priorityAndAction c).1 = Priority.P0 ↔ 5000 ≤ c) ∧
    ((priorityAndAction c).1 = Priority.P1 ↔ 1000 ≤ c ∧ c < 5000) ∧
    ((priorityAndAction c).1 = Priority.P2 ↔ 200 ≤ c ∧ c < 1000) ∧
    ((priorityAndAction c).1 = Priority.P3 ↔ c < 200) := by
  unfold priorityAndAction
  split_ifs with h1 h2 h3 <;> refine ⟨?_, ?_, ?_, ?_⟩ <;> simp
  all_goals try constructor
  all_goals try intro h
  all_goals linarith

/-- The cost score factors as base score times multiplier times impact. -/
lemma triage_cpd (input : TriageIssueInput) :
    (triageIssue input).cpdScore =
      specSeverityBase input.severity * (specEnvMultiplier input.environment : ℚ) *
        specUserImpact input.affectedUsersEstimate := by
  simp [triageIssue, env_lookup_eq, sev_lookup_eq, specUserImpact]

/-- The output priority is the switch applied to the output cost score. -/
lemma triage_priority (input : TriageIssueInput) :
    (triageIssue input).priority = (priorityAndAction (triageIssue input).cpdScore).1 := by
  simp [triageIssue]

/-- Every severity base score, known or defaulted, is positive. -/
lemma specSeverityBase_pos (s : String) : 0 < specSeverityBase s := by
  unfold specSeverityBase
  split_ifs <;> norm_num

/-- Every user-impact factor is positive. -/
lemma specUserImpact_pos (u : ℤ) : 0 < specUserImpact u := by
  unfold specUserImpact
  split_ifs <;> norm_num

/-- The shift-left target is always one of the four values it can emit. -/
lemma shiftLeft_cases (env : String) :
    shiftLeftTarget env = "staging" ∨ shiftLeftTarget env = "ci" ∨
    shiftLeftTarget env = "local_test" ∨ shiftLeftTarget env = "ide" := by
  simp only [shiftLeftTarget, shiftLeftTargets, List.lookup]
  repeat' split
  all_goals simp_all

/-- The bare map index used in the rationale (Go zero value 0 on a miss)
agrees with the spec table on every shift-left target, because the target
is always a known environment. -/
lemma shiftLeft_lookup_eq (env : String) :
    ((environmentMultiplier.lookup (shiftLeftTarget env)).getD 0 : ℤ) =
      specEnvMultiplier (shiftLeftTarget env) := by
  rcases shiftLeft_cases env with h | h | h | h <;> rw [h] <;> decide

/-- The rationale's shift-left cost is the full recomputation at the
shift-left stage. -/
lemma triage_shift_cost (input : TriageIssueInput) :
    (triageIssue input).costRationale.shiftLeftCost =
      specSeverityBase input.severity *
        (specEnvMultiplier (shiftLeftTarget input.environment) : ℚ) *
        specUserImpact input.affectedUsersEstimate := by
  simp [triageIssue, shiftLeft_lookup_eq, sev_lookup_eq, specUserImpact]

/-- C3: for every triage input the cost score is the severity base score
(critical 100, high 50, medium 20, low 5, unknown 20) times the environment
multiplier (ide 1, local_test 3, ci 10, code_review 15, staging 30,
production 100, unknown 30) times the user-impact factor (2 above 1000
affected users, 1.5 above 100, else 1), and the priority bands on the cost
are P0 at 5000 and above, P1 on [1000, 5000), P2 on [200, 1000) and P3
below 200, each inclusive on the lower bound. -/
theorem triage_cost_tables_and_priority_thresholds :
    ∀ input : TriageIssueInput,
      (triageIssue input).cpdScore =
        specSeverityBase input.severity * (specEnvMultiplier input.environment : ℚ) *
          specUserImpact input.affectedUsersEstimate ∧
      ((triageIssue input).priority = Priority.P0 ↔ 5000 ≤ (triageIssue input).cpdScore) ∧
      ((triageIssue input).priority = Priority.P1 ↔
        1000 ≤ (triageIssue input).cpdScore ∧ (triageIssue input).cpdScore < 5000) ∧
      ((triageIssue input).priority = Priority.P2 ↔
        200 ≤ (triageIssue input).cpdScore ∧ (triageIssue input).cpdScore < 1000) ∧
      ((triageIssue input).priority = Priority.P3 ↔ (triageIssue input).cpdScore < 200) := by
  intro input
  have hp := priority_cases (triageIssue input).cpdScore
  rw [triage_priority input] at *
  exact ⟨triage_cpd input, hp.1, hp.2.1, hp.2.2.1, hp.2.2.2⟩

/-- C5: the shift-left target is the fixed one-step-earlier mapping
(production to staging, staging to ci, ci and code_review to local_test,
local_test to ide, ide to itself), and the cost rationale reports the cost
recomputed at the shift-left stage (base times shift-left multiplier times
impact) together with the ratio of the actual cost to that recomputed
shift-left cost, obtained by dividing by the recomputed denominator. -/
theorem shift_left_and_rationale_recomputation :
    (shiftLeftTarget "production" = "staging" ∧ shiftLeftTarget "staging" = "ci" ∧
     shiftLeftTarget "ci" = "local_test" ∧ shiftLeftTarget "code_review" = "local_test" ∧
     shiftLeftTarget "local_test" = "ide" ∧ shiftLeftTarget "ide" = "ide") ∧
    ∀ input : TriageIssueInput,
      (triageIssue input).costRationale.shiftLeftCost =
        specSeverityBase input.severity *
          (specEnvMultiplier (shiftLeftTarget input.environment) : ℚ) *
          specUserImpact input.affectedUsersEstimate ∧
      (triageIssue input).costRationale.costRatio =
        (triageIssue input).cpdScore / (triageIssue input).costRationale.shiftLeftCost := by
  refine ⟨by decide, fun input => ⟨triage_shift_cost input, ?_⟩⟩
  simp [triageIssue]

/-- C9: for a fixed severity and user-impact factor the cost score strictly
increases along the environment order ide, local_test, ci, code_review,
staging, production; and the priority computed from a cost score is a
non-decreasing step function of the cost (a higher cost never gets a
less urgent priority). -/
theorem triage_environment_monotone_and_priority_step :
    (∀ (rt sev : String) (users : ℤ),
      (triageIssue ⟨rt, sev, "ide", users⟩).cpdScore <
        (triageIssue ⟨rt, sev, "local_test", users⟩).cpdScore ∧
      (triageIssue ⟨rt, sev, "local_test", users⟩).cpdScore <
        (triageIssue ⟨rt, sev, "ci", users⟩).cpdScore ∧
      (triageIssue ⟨rt, sev, "ci", users⟩).cpdScore <
        (triageIssue ⟨rt, sev, "code_review", users⟩).cpdScore ∧
      (triageIssue ⟨rt, sev, "code_review", users⟩).cpdScore <
        (triageIssue ⟨rt, sev, "staging", users⟩).cpdScore ∧
      (triageIssue ⟨rt, sev, "staging", users⟩).cpdScore <
        (triageIssue ⟨rt, sev, "production", users⟩).cpdScore) ∧
    ∀ c₁ c₂ : ℚ, c₁ ≤ c₂ →
      urgencyRank (priorityAndAction c₂).1 ≤ urgencyRank (priorityAndAction c₁).1 := by
  constructor
  · intro rt sev users
    have hb := specSeverityBase_pos sev
    have hf := specUserImpact_pos users
    have hbf := mul_pos hb hf
    have e1 : specEnvMultiplier "ide" = 1 := by decide
    have e2 : specEnvMultiplier "local_test" = 3 := by decide
    have e3 : specEnvMultiplier "ci" = 10 := by decide
    have e4 : specEnvMultiplier "code_review" = 15 := by decide
    have e5 : specEnvMultiplier "staging" = 30 := by decide
    have e6 : specEnvMultiplier "production" = 100 := by decide
    refine ⟨?_, ?_, ?_, ?_, ?_⟩ <;>
      simp only [triage_cpd, e1, e2, e3, e4, e5, e6] <;> push_cast <;> nlinarith
  · intro c₁ c₂ h
    unfold priorityAndAction urgencyRank
    split_ifs <;> simp_all <;> linarith

/-- Witness for C9: a concrete cost pair 100 and 6000 with the priorities
in non-increasing urgency rank. -/
theorem triage_environment_monotone_and_priority_step_witness :
    (100 : ℚ) ≤ 6000 ∧
    urgencyRank (priorityAndAction 6000).1 ≤ urgencyRank (priorityAndAction 100).1 :=
  ⟨by norm_num, triage_environment_monotone_and_priority_step.2 100 6000 (by norm_num)⟩

/-- C10: the shift-left target is total into the six known environments
(an unrecognized environment maps to "ci"), every environment multiplier is
a positive integer, the base score and user-impact factor are positive, and
therefore the recomputed shift-left cost used as the rationale's divisor is
strictly positive — the rationale never divides by zero. -/
theorem triage_no_division_by_zero :
    (∀ env : String, shiftLeftTarget env ∈ knownEnvironments) ∧
    (∀ env : String, env ∉ knownEnvironments → shiftLeftTarget env = "ci") ∧
    (∀ p ∈ environmentMultiplier, 0 < p.2) ∧
    ∀ input : TriageIssueInput,
      0 < (triageIssue input).costRationale.baseScore ∧
      0 < (triageIssue input).costRationale.userImpactFactor ∧
      0 < (triageIssue input).costRationale.shiftLeftCost := by
  refine ⟨?_, ?_, by decide, ?_⟩
  · intro env
    rcases shiftLeft_cases env with h | h | h | h <;> rw [h] <;> decide
  · intro env h
    simp only [knownEnvironments, List.mem_cons, List.not_mem_nil, or_false, not_or] at h
    obtain ⟨h1, h2, h3, h4, h5, h6⟩ := h
    simp [shiftLeftTarget, shiftLeftTargets, List.lookup,
      beq_eq_false_iff_ne.mpr h1, beq_eq_false_iff_ne.mpr h2, beq_eq_false_iff_ne.mpr h3,
      beq_eq_false_iff_ne.mpr h4, beq_eq_false_iff_ne.mpr h5, beq_eq_false_iff_ne.mpr h6]
  · intro input
    have hb := specSeverityBase_pos input.severity
    have hf := specUserImpact_pos input.affectedUsersEstimate
    refine ⟨?_, ?_, ?_⟩
    · simpa [triageIssue, sev_lookup_eq] using hb
    · simpa [triageIssue, specUserImpact] using hf
    · rw [triage_shift_cost input]
      have hm : (0 : ℚ) < (specEnvMultiplier (shiftLeftTarget input.environment) : ℚ) := by
        rcases shiftLeft_cases input.environment with h | h | h | h <;> rw [h] <;> decide
      positivity

/-- Witness for C10: the unrecognized environment "qa" is outside the known
table and is shifted left to "ci". -/
theorem triage_no_division_by_zero_witness :
    "qa" ∉ knownEnvironments ∧ shiftLeftTarget "qa" = "ci" :=
  ⟨by decide, triage_no_division_by_zero.2.1 "qa" (by decide)⟩

/-! ### Fix-plan engine (`tools/triage.go`, GenerateFixPlan) -/

/-- The decoded `GenerateFixPlanInput` struct. -/
structure GenerateFixPlanInput where
  regressionType : String
  severity : String
  affectedFiles : List String
  rootCause : String
  priority : String

/-- The `FixStep` struct: order, action tag, description and automation flag. -/
structure FixStep where
  order : ℕ
  action : String
  description : String
  automated : Bool
deriving DecidableEq, Repr

/-- The `GenerateFixPlanOutput` struct. -/
structure GenerateFixPlanOutput where
  immediateActions : List String
  fixSteps : List FixStep
  preventionMeasures : List String
  shiftLeftRecommendations : List String
  estimatedEffort : String
  rollbackPlan : String
  testStrategy : String
deriving DecidableEq, Repr

/-- The `fixPlaybooks` map of `tools/triage.go`: five complete playbooks
keyed by regression type (only keyed lookups are performed on the map). -/
def fixPlaybooks : List (String × GenerateFixPlanOutput) :=
  [("null_pointer",
    { immediateActions :=
        ["Add null guard before the failing dereference",
         "Check if recent commit removed a non-null guarantee"]
      fixSteps :=
        [⟨1, "reproduce", "Write a failing test that reproduces the NPE", false⟩,
         ⟨2, "guard", "Add nil/null check with a meaningful error message or default", false⟩,
         ⟨3, "root-cause", "Trace back to where null was first introduced (often in a factory or constructor)", false⟩,
         ⟨4, "annotation", "Add @NullSafe / null-safety annotations to prevent regression", false⟩,
         ⟨5, "test", "Add unit test for the null-input path", true⟩]
      preventionMeasures :=
        ["Enable null-safety linter rules (e.g., go vet, staticcheck SA5011)",
         "Require @NullSafe annotation on all new public APIs",
         "Add IDE plugin to flag potential nil dereferences"]
      shiftLeftRecommendations :=
        ["Enable nil-check warnings as IDE errors (shift detection to IDE stage)",
         "Run staticcheck in pre-commit hook (shift to local_test)",
         "Add nil-pointer detection to CI pipeline"]
      estimatedEffort := "1-4 hours"
      rollbackPlan := "Revert the commit that removed the non-null guarantee"
      testStrategy := "Unit test with nil/zero-value inputs, integration test for the affected flow" }),
   ("performance",
    { immediateActions :=
        ["Check if a recent DB query lost an index",
         "Look for N+1 query patterns introduced in the change",
         "Compare flame graph before and after the change"]
      fixSteps :=
        [⟨1, "profile", "Run profiler (pprof, perf, py-spy) to get baseline", true⟩,
         ⟨2, "bisect", "Use git bisect to find the commit that caused the regression", true⟩,
         ⟨3, "analyze", "Identify the hot path — DB query, loop, serialization, or allocation", false⟩,
         ⟨4, "optimize", "Apply targeted fix: add index, batch queries, cache result, or reduce allocations", false⟩,
         ⟨5, "benchmark", "Add benchmark test to lock in the performance improvement", true⟩,
         ⟨6, "monitor", "Add performance metric/alert for this path", true⟩]
      preventionMeasures :=
        ["Add benchmark tests for all critical code paths",
         "Set performance budgets in CI (e.g., benchstat comparison)",
         "Add DB query explain-plan checks in code review"]
      shiftLeftRecommendations :=
        ["Run benchmarks in CI and fail on >10% regression (shift to ci stage)",
         "Use continuous profiling in staging before prod promotion",
         "Add performance linting to catch O(n²) patterns statically"]
      estimatedEffort := "4-16 hours (profiling + fix + benchmarks)"
      rollbackPlan := "Revert to previous release; apply hotfix forward"
      testStrategy := "Benchmark tests, load testing with realistic data volumes" }),
   ("crash",
    { immediateActions :=
        ["Enable feature flag to roll back or disable the new code path immediately",
         "Capture full stack trace and correlated logs",
         "Check error monitoring (Sentry, Datadog) for crash volume"]
      fixSteps :=
        [⟨1, "rollback", "Roll back or disable the change to restore stability", false⟩,
         ⟨2, "reproduce", "Reproduce crash in a local environment using the stack trace", false⟩,
         ⟨3, "fix", "Address root cause — unhandled error, resource exhaustion, or invariant violation", false⟩,
         ⟨4, "test", "Write test that covers the crash scenario", false⟩,
         ⟨5, "canary", "Re-deploy fix to canary/staging before full rollout", true⟩]
      preventionMeasures :=
        ["Add crash-rate SLO alert (page when crash rate > baseline)",
         "Enable structured crash reporting with full context",
         "Use feature flags for all risky changes to allow instant rollback"]
      shiftLeftRecommendations :=
        ["Run chaos/fault-injection tests in CI",
         "Add panic/exception tracking to staging environment",
         "Enable race detector in test runs (go test -race)"]
      estimatedEffort := "2-8 hours for hotfix; 1-3 days for root cause fix"
      rollbackPlan := "Immediately revert via feature flag; if no flag, revert deployment"
      testStrategy := "Crash reproduction test, fault injection, end-to-end scenario test" }),
   ("security_flaw",
    { immediateActions :=
        ["Immediately disable or isolate the affected endpoint/feature",
         "Notify security team (treat as incident)",
         "Assess whether the vulnerability has been exploited (check audit logs)"]
      fixSteps :=
        [⟨1, "contain", "Disable affected feature or apply WAF rule immediately", false⟩,
         ⟨2, "assess", "Determine blast radius: what data/systems are exposed", false⟩,
         ⟨3, "fix", "Apply security patch with input validation / output encoding / authz check", false⟩,
         ⟨4, "audit", "Full security audit of adjacent code paths", false⟩,
         ⟨5, "pen-test", "Targeted penetration test of the fix", false⟩,
         ⟨6, "disclose", "Coordinate responsible disclosure if external impact", false⟩]
      preventionMeasures :=
        ["Add SAST scanner (Semgrep, CodeQL) to CI pipeline",
         "Add DAST scanner against staging before every release",
         "Enforce security code review for all auth/data-handling changes"]
      shiftLeftRecommendations :=
        ["Run SAST in IDE via plugin (shift to ide stage)",
         "Require security review checklist in PR template",
         "Add automated SQL injection / XSS checks to CI"]
      estimatedEffort := "1-2 days for patch; 1 week for full audit"
      rollbackPlan := "Immediately revert; do NOT wait for a clean fix if actively exploited"
      testStrategy := "OWASP test suite, targeted exploit PoC test, regression test suite" }),
   ("memory_leak",
    { immediateActions :=
        ["Check if recent change added a long-lived reference or disabled GC pressure relief",
         "Monitor heap growth rate in production"]
      fixSteps :=
        [⟨1, "profile", "Capture heap profile before and after change (pprof heap, valgrind)", true⟩,
         ⟨2, "identify", "Identify the leaking allocation type and call site", false⟩,
         ⟨3, "fix", "Close resources, remove stale references, add defer/finally cleanup", false⟩,
         ⟨4, "test", "Add test that runs the path N times and checks heap growth", false⟩,
         ⟨5, "monitor", "Add heap metric alert for abnormal growth rate", true⟩]
      preventionMeasures :=
        ["Add heap memory leak detection to CI (go test with -memprofile)",
         "Require resource cleanup review for all I/O or connection changes"]
      shiftLeftRecommendations :=
        ["Run go test -memprofile in CI and fail on unexpected heap growth",
         "Enable leak detector in integration tests"]
      estimatedEffort := "4-12 hours"
      rollbackPlan := "Revert the change; restart affected services to clear leaked memory"
      testStrategy := "Memory benchmark, long-running soak test, heap profiling" })]

/-- The generic fallback playbook of `GenerateFixPlan` for an unmatched
regression type. -/
def genericPlaybook : GenerateFixPlanOutput :=
  { immediateActions :=
      ["Reproduce the issue in a local or staging environment",
       "Identify the most recent change to the affected area"]
    fixSteps :=
      [⟨1, "reproduce", "Write a failing test case that captures the bug", false⟩,
       ⟨2, "bisect", "Use git bisect to find the introducing commit", true⟩,
       ⟨3, "fix", "Apply targeted fix addressing the root cause", false⟩,
       ⟨4, "test", "Verify the fix with the reproduction test", false⟩,
       ⟨5, "review", "Submit for code review with clear description of root cause and fix", false⟩]
    preventionMeasures :=
      ["Add regression test to the test suite",
       "Document the failure mode in the codebase"]
    shiftLeftRecommendations :=
      ["Add test coverage to catch this class of bug earlier in the pipeline",
       "Consider adding a linter rule to detect this pattern"]
    estimatedEffort := "Unknown — depends on root cause"
    rollbackPlan := "Revert the introducing commit"
    testStrategy := "Unit test covering the failure scenario" }

/-- The playbook selected for an input before any mutation. -/
def basePlaybook (input : GenerateFixPlanInput) : GenerateFixPlanOutput :=
  (fixPlaybooks.lookup input.regressionType).getD genericPlaybook

/-- The two escalation actions prepended for P0 priority or critical
severity. -/
def escalationActions : List String :=
  ["PAGE ON-CALL IMMEDIATELY — this is a P0 incident",
   "Open incident bridge / war room"]

/-- The `GenerateFixPlan` engine of `tools/triage.go` (after JSON decoding):
select the playbook, prepend the escalation actions when priority is P0 or
severity is critical, and append a focus-files step when files were
supplied. -/
def generateFixPlan (input : GenerateFixPlanInput) : GenerateFixPlanOutput :=
  let playbook := basePlaybook input
  let playbook :=
    if input.priority == "P0" || input.severity == "critical" then
      { playbook with immediateActions := escalationActions ++ playbook.immediateActions }
    else playbook
  if 0 < input.affectedFiles.length then
    { playbook with
        fixSteps := playbook.fixSteps ++
          [{ order := playbook.fixSteps.length + 1
             action := "focus-files"
             description := "Focus review on: " ++ String.intercalate ", " input.affectedFiles
             automated := false }] }
  else playbook

/-- C6: for every fix-plan input with priority P0 or critical severity, the
plan's immediate actions are exactly the two fixed escalation strings
followed by the selected playbook's original immediate actions, for every
regression type; when the affected-file list is non-empty exactly one
focus-files step naming those files is appended, numbered one past the
original step count, and otherwise the steps are unchanged; and every other
playbook field is returned untouched — the only mutations are this prepend
and this append. -/
theorem fixplan_escalation_and_append (input : GenerateFixPlanInput)
    (h : input.priority = "P0" ∨ input.severity = "critical") :
    (generateFixPlan input).immediateActions =
      escalationActions ++ (basePlaybook input).immediateActions ∧
    (input.affectedFiles = [] →
      (generateFixPlan input).fixSteps = (basePlaybook input).fixSteps) ∧
    (input.affectedFiles ≠ [] →
      (generateFixPlan input).fixSteps =
        (basePlaybook input).fixSteps ++
          [{ order := (basePlaybook input).fixSteps.length + 1
             action := "focus-files"
             description := "Focus review on: " ++ String.intercalate ", " input.affectedFiles
             automated := false }]) ∧
    (generateFixPlan input).preventionMeasures = (basePlaybook input).preventionMeasures ∧
    (generateFixPlan input).shiftLeftRecommendations =
      (basePlaybook input).shiftLeftRecommendations ∧
    (generateFixPlan input).estimatedEffort = (basePlaybook input).estimatedEffort ∧
    (generateFixPlan input).rollbackPlan = (basePlaybook input).rollbackPlan ∧
    (generateFixPlan input).testStrategy = (basePlaybook input).testStrategy := by
  have hcond : (input.priority == "P0" || input.severity == "critical") = true := by
    rcases h with h | h <;> simp [h]
  unfold generateFixPlan
  rw [hcond]
  by_cases hf : input.affectedFiles = []
  · simp [hf]
  · have hlen : 0 < input.affectedFiles.length := List.length_pos.mpr hf
    simp [hf, hlen]

/-- A concrete fix-plan input with critical severity, non-P0 priority and
one affected file. -/
def fixplanWitnessInput : GenerateFixPlanInput :=
  { regressionType := "crash"
    severity := "critical"
    affectedFiles := ["server/main.go"]
    rootCause := "unhandled error"
    priority := "P1" }

/-- Witness for C6: on a critical crash with one affected file, the
escalation actions are prepended and the focus-files step is appended. -/
theorem fixplan_escalation_and_append_witness :
    (fixplanWitnessInput.priority = "P0" ∨ fixplanWitnessInput.severity = "critical") ∧
    (generateFixPlan fixplanWitnessInput).immediateActions =
      escalationActions ++ (basePlaybook fixplanWitnessInput).immediateActions ∧
    (generateFixPlan fixplanWitnessInput).fixSteps =
      (basePlaybook fixplanWitnessInput).fixSteps ++
        [{ order := (basePlaybook fixplanWitnessInput).fixSteps.length + 1
           action := "focus-files"
           description := "Focus review on: " ++
             String.intercalate ", " fixplanWitnessInput.affectedFiles
           automated := false }] :=
  ⟨Or.inr rfl,
   (fixplan_escalation_and_append fixplanWitnessInput (Or.inr rfl)).1,
   (fixplan_escalation_and_append fixplanWitnessInput (Or.inr rfl)).2.2.1 (by decide)⟩

/-! ### Theorems about the detection engine -/

/-- C4: for every classification input whose run history contains at least
one "fail" token, the result has IsRegression true regardless of the
keyword outcome, and the final confidence is the statistical (Wilson)
confidence capped at 0.95 whenever it strictly exceeds the keyword-derived
confidence, and the keyword-derived confidence otherwise. -/
theorem observed_failure_forces_regression (input : DetectRegressionInput)
    (h : 0 < failCount (runsOf input)) :
    (detectRegression input).isRegression = true ∧
    (detectRegression input).confidence =
      (if keywordConfidence input < runStatConfidence (runsOf input)
       then min (runStatConfidence (runsOf input)) 0.95
       else keywordConfidence input) := by
  have hlen : 0 < (runsOf input).length := lt_of_lt_of_le h (List.countP_le_length _)
  have hreg : isRegressionOf input = true := by
    unfold isRegressionOf
    simp [hlen, h]
  constructor
  · simp [detectRegression, hreg]
  · simp [detectRegression, confidenceOf, hreg, hlen, h]

/-- A concrete input with two failing runs and a performance keyword. -/
def failWitnessInput : DetectRegressionInput :=
  { description := "timeout observed"
    filesChanged := []
    environment := "ci"
    errorMessage := ""
    runHistory := some ["fail", "fail"] }

/-- Witness for C4: a history with two failures forces a regression and the
stated confidence selection. -/
theorem observed_failure_forces_regression_witness :
    0 < failCount (runsOf failWitnessInput) ∧
    ((detectRegression failWitnessInput).isRegression = true ∧
     (detectRegression failWitnessInput).confidence =
       (if keywordConfidence failWitnessInput < runStatConfidence (runsOf failWitnessInput)
        then min (runStatConfidence (runsOf failWitnessInput)) 0.95
        else keywordConfidence failWitnessInput)) :=
  ⟨by decide, observed_failure_forces_regression failWitnessInput (by decide)⟩

/-- C7 (amended): the output carries RunHistoryStats exactly when the
supplied run history is non-empty — a present but zero-length history
produces no stats record — while the Wilson bound itself returns the
insufficient-data sentinel 0 at total 0. -/
theorem runstats_presence_iff_nonempty_history :
    (∀ input : DetectRegressionInput,
      ((detectRegression input).runStats.isSome ↔ 0 < (runsOf input).length)) ∧
    ∀ (k : ℕ) (z : ℝ), wilsonLowerBound k 0 z = 0 := by
  constructor
  · intro input
    by_cases hl : 0 < (runsOf input).length <;> simp [detectRegression, hl]
  · intro k z
    unfold wilsonLowerBound
    simp

/-- A classification input that supplies a zero-length run history. -/
def zeroLengthHistoryInput : DetectRegressionInput :=
  { description := ""
    filesChanged := []
    environment := "ci"
    errorMessage := ""
    runHistory := some [] }

/-- Counterexample to C7 as stated: an input that supplies a zero-length
run history gets no RunHistoryStats at all (the guard is on the history
length, not on its presence). -/
theorem runstats_zero_length_counterexample :
    zeroLengthHistoryInput.runHistory = some [] ∧
    (detectRegression zeroLengthHistoryInput).runStats = none := by
  refine ⟨rfl, ?_⟩
  simp [detectRegression, zeroLengthHistoryInput, runsOf]

/-- C8 (amended): for every input in which no keyword row matches and whose
run history contains no "fail" token, the engine returns normally with
regression type unknown, severity low, confidence exactly 0.2 and the
no-pattern summary. -/
theorem no_match_defaults (input : DetectRegressionInput)
    (hscores : scoredRows (lowerDesc input) = [])
    (hfail : failCount (runsOf input) = 0) :
    (detectRegression input).regressionType = RegressionType.unknown ∧
    (detectRegression input).severity = Severity.low ∧
    (detectRegression input).confidence = 0.2 ∧
    (detectRegression input).summary = Summary.noPattern := by
  have hbest : bestOf input = none := by
    unfold bestOf
    rw [hscores]
    rfl
  have hreg : isRegressionOf input = false := by
    unfold isRegressionOf
    simp [hbest, hfail]
  refine ⟨?_, ?_, ?_, ?_⟩ <;> simp [detectRegression, hbest, hreg, confidenceOf]

/-- A concrete input matching no keyword row, with no run history. -/
def noMatchInput : DetectRegressionInput :=
  { description := "hello"
    filesChanged := []
    environment := "staging"
    errorMessage := ""
    runHistory := none }

/-- Witness for C8: the input "hello" matches nothing and yields the
unknown/low/0.2/no-pattern defaults. -/
theorem no_match_defaults_witness :
    scoredRows (lowerDesc noMatchInput) = [] ∧ failCount (runsOf noMatchInput) = 0 ∧
    ((detectRegression noMatchInput).regressionType = RegressionType.unknown ∧
     (detectRegression noMatchInput).severity = Severity.low ∧
     (detectRegression noMatchInput).confidence = 0.2 ∧
     (detectRegression noMatchInput).summary = Summary.noPattern) :=
  ⟨by decide, by decide, no_match_defaults noMatchInput (by decide) (by decide)⟩

/-- A no-keyword input with a single failing run. -/
def noMatchFailureInput : DetectRegressionInput :=
  { description := ""
    filesChanged := []
    environment := "ci"
    errorMessage := ""
    runHistory := some ["fail"] }

/-- Counterexample to C8 as stated: with no keyword match but a failing run
history the confidence is 0.5 (the Wilson bound), not 0.2, and the summary
is the detected sentence, not the no-pattern one. -/
theorem no_match_defaults_counterexample :
    scoredRows (lowerDesc noMatchFailureInput) = [] ∧
    (detectRegression noMatchFailureInput).confidence = 1 / 2 ∧
    ((1 : ℝ) / 2 ≠ 0.2) ∧
    (detectRegression noMatchFailureInput).summary ≠ Summary.noPattern := by
  have hbest : bestOf noMatchFailureInput = none := by decide
  have hkw : keywordConfidence noMatchFailureInput = 0 := by
    unfold keywordConfidence
    rw [hbest]
  have hstat : runStatConfidence (runsOf noMatchFailureInput) = 1 / 2 := by
    rw [show runStatConfidence (runsOf noMatchFailureInput) = wilsonLowerBound 1 1 1 from rfl,
      wilson_1_1]
  have hreg : isRegressionOf noMatchFailureInput = true := by decide
  have hlen : 0 < (runsOf noMatchFailureInput).length := by decide
  have hfail : 0 < failCount (runsOf noMatchFailureInput) := by decide
  refine ⟨by decide, ?_, by norm_num, ?_⟩
  · simp only [detectRegression, confidenceOf, hreg, hlen, hfail, and_self, if_true,
      hkw, hstat]
    rw [if_pos (by norm_num)]
    norm_num
  · simp [detectRegression, hreg]

/-! ### The first-highest-count winner characterization (C2) -/

/-- The selection fold returns an element of the list that is a maximum of
the scores and is preceded only by strictly smaller scores: the first
element attaining the highest score, earliest winning exact ties. -/
lemma foldl_pickStep_split (t : List (Signal × ℕ)) :
    ∀ b : Signal × ℕ,
      ∃ pre post,
        b :: t = pre ++ (t.foldl pickStep b) :: post ∧
        (∀ x ∈ pre, x.2 < (t.foldl pickStep b).2) ∧
        (∀ x ∈ b :: t, x.2 ≤ (t.foldl pickStep b).2) := by
  induction t with
  | nil =>
    intro b
    exact ⟨[], [], rfl, by simp, by simp⟩
  | cons s t ih =>
    intro b
    have hfold : (s :: t).foldl pickStep b = t.foldl pickStep (pickStep b s) :=
      List.foldl_cons ..
    by_cases hbs : b.2 < s.2
    · have hps : pickStep b s = s := by simp [pickStep, hbs]
      obtain ⟨pre, post, hsplit, hpre, hmax⟩ := ih s
      rw [hps] at hfold
      have hsmem : s.2 ≤ (t.foldl pickStep s).2 := hmax s (List.mem_cons_self s t)
      refine ⟨b :: pre, post, ?_, ?_, ?_⟩
      · rw [hfold, List.cons_append]
        exact congrArg (b :: ·) hsplit
      · intro x hx
        rw [hfold]
        rcases List.mem_cons.mp hx with rfl | hx
        · exact lt_of_lt_of_le hbs hsmem
        · exact hpre x hx
      · intro x hx
        rw [hfold]
        rcases List.mem_cons.mp hx with rfl | hx
        · exact le_of_lt (lt_of_lt_of_le hbs hsmem)
        · exact hmax x hx
    · have hps : pickStep b s = b := by simp [pickStep, hbs]
      obtain ⟨pre, post, hsplit, hpre, hmax⟩ := ih b
      rw [hps] at hfold
      have hsb : s.2 ≤ b.2 := le_of_not_lt hbs
      have hbmax : b.2 ≤ (t.foldl pickStep b).2 := hmax b (List.mem_cons_self b t)
      cases pre with
      | nil =>
        have hb : b = t.foldl pickStep b := (List.cons.injEq .. ▸ hsplit).1
        refine ⟨[], s :: t, ?_, by simp, ?_⟩
        · rw [hfold, List.nil_append, ← hb]
        · intro x hx
          rw [hfold]
          rcases List.mem_cons.mp hx with rfl | hx
          · exact hbmax
          · rcases List.mem_cons.mp hx with rfl | hx
            · exact le_trans hsb hbmax
            · exact hmax x (List.mem_cons_of_mem b hx)
      | cons p pre' =>
        have hbp : b = p := (List.cons.injEq .. ▸ hsplit).1
        have ht : t = pre' ++ (t.foldl pickStep b) :: post := (List.cons.injEq .. ▸ hsplit).2
        have hblt : b.2 < (t.foldl pickStep b).2 := by
          have hp := hpre p (List.mem_cons_self p pre')
          rwa [← hbp] at hp
        refine ⟨b :: s :: pre', post, ?_, ?_, ?_⟩
        · rw [hfold]
          calc b :: s :: t = b :: s :: (pre' ++ (t.foldl pickStep b) :: post) := by rw [← ht]
            _ = (b :: s :: pre') ++ (t.foldl pickStep b) :: post := by simp
        · intro x hx
          rw [hfold]
          rcases List.mem_cons.mp hx with rfl | hx
          · exact hblt
          · rcases List.mem_cons.mp hx with rfl | hx
            · exact lt_of_le_of_lt hsb hblt
            · exact hpre x (List.mem_cons_of_mem p hx)
        · intro x hx
          rw [hfold]
          rcases List.mem_cons.mp hx with rfl | hx
          · exact hbmax
          · rcases List.mem_cons.mp hx with rfl | hx
            · exact le_trans hsb hbmax
            · exact hmax x (List.mem_cons_of_mem b hx)


/-- A split of a filterMap image lifts to a split of the original list. -/
lemma filterMap_split {α β : Type} (f : α → Option β) :
    ∀ (L : List α) (pre : List β) (w : β) (post : List β),
      L.filterMap f = pre ++ w :: post →
      ∃ A a B, L = A ++ a :: B ∧ f a = some w ∧ A.filterMap f = pre ∧ B.filterMap f = post := by
  intro L
  induction L with
  | nil =>
    intro pre w post h
    simp at h
  | cons x L ih =>
    intro pre w post h
    cases hfx : f x with
    | none =>
      rw [List.filterMap_cons_none hfx] at h
      obtain ⟨A, a, B, hL, hfa, hA, hB⟩ := ih pre w post h
      exact ⟨x :: A, a, B, by rw [hL, List.cons_append],
        hfa, by rw [List.filterMap_cons_none hfx, hA], hB⟩
    | some y =>
      rw [List.filterMap_cons_some hfx] at h
      cases pre with
      | nil =>
        obtain ⟨hyw, hpost⟩ : y = w ∧ L.filterMap f = post := by
          constructor
          · exact (List.cons.injEq .. ▸ h).1
          · exact (List.cons.injEq .. ▸ h).2
        exact ⟨[], x, L, rfl, hyw ▸ hfx, rfl, hpost⟩
      | cons p pre' =>
        have hyp : y = p := (List.cons.injEq .. ▸ h).1
        have hrest : L.filterMap f = pre' ++ w :: post := (List.cons.injEq .. ▸ h).2
        obtain ⟨A, a, B, hL, hfa, hA, hB⟩ := ih pre' w post hrest
        exact ⟨x :: A, a, B, by rw [hL, List.cons_append], hfa,
          by rw [List.filterMap_cons_some hfx, hA, hyp], hB⟩



/-- A scoring step produces a candidate exactly for a positive match count,
pairing the row with its count. -/
lemma scoreRow_eq_some {desc : List Char} {sig : Signal} {pr : Signal × ℕ} :
    scoreRow desc sig = some pr ↔
      0 < matchCount desc sig ∧ pr = (sig, matchCount desc sig) := by
  rw [show scoreRow desc sig =
    (if 0 < matchCount desc sig then some (sig, matchCount desc sig) else none) from rfl]
  split_ifs with h <;> simp [h, eq_comm]


/-- A scoring step produces nothing exactly for a zero match count. -/
lemma scoreRow_eq_none {desc : List Char} {sig : Signal} :
    scoreRow desc sig = none ↔ matchCount desc sig = 0 := by
  rw [show scoreRow desc sig =
    (if 0 < matchCount desc sig then some (sig, matchCount desc sig) else none) from rfl]
  split_ifs with h <;> simp <;> omega


/-- When some row matched, the winning candidate is the first-defined signal
row with the strictly highest match count. -/
lemma detect_winner (input : DetectRegressionInput)
    (hne : scoredRows (lowerDesc input) ≠ []) :
    ∃ A w B,
      regressionSignals = A ++ w :: B ∧
      0 < matchCount (lowerDesc input) w ∧
      (∀ s ∈ A, matchCount (lowerDesc input) s < matchCount (lowerDesc input) w) ∧
      (∀ s ∈ regressionSignals,
        matchCount (lowerDesc input) s ≤ matchCount (lowerDesc input) w) ∧
      bestOf input = some (w, matchCount (lowerDesc input) w) := by
  obtain ⟨h, t, hcons⟩ := List.exists_cons_of_ne_nil hne
  have hbest : bestOf input = some (t.foldl pickStep h) := by
    unfold bestOf
    rw [hcons]
    rfl
  obtain ⟨pre, post, hsplit, hpre, hmax⟩ := foldl_pickStep_split t h
  have hscores : (regressionSignals.filterMap (scoreRow (lowerDesc input))) =
      pre ++ (t.foldl pickStep h) :: post := by
    have : scoredRows (lowerDesc input) = pre ++ (t.foldl pickStep h) :: post := by
      rw [hcons]
      exact hsplit
    exact this
  obtain ⟨A, a, B, hsig, hfa, hA, hB⟩ :=
    filterMap_split (scoreRow (lowerDesc input)) regressionSignals pre
      (t.foldl pickStep h) post hscores
  obtain ⟨hapos, har⟩ := scoreRow_eq_some.mp hfa
  refine ⟨A, a, B, hsig, hapos, ?_, ?_, ?_⟩
  · intro s hs
    cases hfs : scoreRow (lowerDesc input) s with
    | none =>
      rw [scoreRow_eq_none.mp hfs]
      exact hapos
    | some y =>
      have hy : y ∈ pre := hA ▸ List.mem_filterMap.mpr ⟨s, hs, hfs⟩
      have hlt := hpre y hy
      obtain ⟨hspos, hy'⟩ := scoreRow_eq_some.mp hfs
      rw [hy', har] at hlt
      exact hlt
  · intro s hs
    cases hfs : scoreRow (lowerDesc input) s with
    | none =>
      rw [scoreRow_eq_none.mp hfs]
      exact Nat.zero_le _
    | some y =>
      have hy : y ∈ scoredRows (lowerDesc input) :=
        List.mem_filterMap.mpr ⟨s, hs, hfs⟩
      rw [hcons] at hy
      have hle := hmax y hy
      obtain ⟨hspos, hy'⟩ := scoreRow_eq_some.mp hfs
      rw [hy', har] at hle
      exact hle
  · rw [hbest, har]


/-- With no observed failure the final confidence is the keyword-derived
confidence. -/
lemma confidence_no_failures (input : DetectRegressionInput)
    (hfail : failCount (runsOf input) = 0) (hreg : isRegressionOf input = true) :
    (detectRegression input).confidence = keywordConfidence input := by
  simp [detectRegression, confidenceOf, hfail, hreg]


/-- The classifier input of the end-to-end panic scenario: the description
"panic: nil pointer dereference in handler" with an empty run history. -/
def panicExampleInput : DetectRegressionInput :=
  { description := "panic: nil pointer dereference in handler"
    filesChanged := []
    environment := "ci"
    errorMessage := ""
    runHistory := some [] }

/-- C2 (amended): for every classification input in which at least one
keyword row has a positive match count and whose run history contains no
"fail" token, the result's regression type and severity are those of the
first-defined row with the strictly highest match count (earliest-defined
row wins exact ties) and the confidence is that winning count divided by
the first row's keyword count plus 3, clamped to [0.3, 0.9] — the same
fixed denominator for every winner; in particular the panic/nil-pointer
description with an empty run history yields null_pointer, high, and a
confidence within [0.3, 0.9]. -/
theorem keyword_winner_first_highest :
    (∀ input : DetectRegressionInput,
      scoredRows (lowerDesc input) ≠ [] →
      failCount (runsOf input) = 0 →
      ∃ A w B,
        regressionSignals = A ++ w :: B ∧
        0 < matchCount (lowerDesc input) w ∧
        (∀ s ∈ A, matchCount (lowerDesc input) s < matchCount (lowerDesc input) w) ∧
        (∀ s ∈ regressionSignals,
          matchCount (lowerDesc input) s ≤ matchCount (lowerDesc input) w) ∧
        (detectRegression input).regressionType = w.regrType ∧
        (detectRegression input).severity = w.severity ∧
        (detectRegression input).confidence =
          clampConf ((matchCount (lowerDesc input) w : ℝ) /
            ((firstRowKeywordCount : ℝ) + 3))) ∧
    ((detectRegression panicExampleInput).regressionType = RegressionType.nullPointer ∧
     (detectRegression panicExampleInput).severity = Severity.high ∧
     0.3 ≤ (detectRegression panicExampleInput).confidence ∧
     (detectRegression panicExampleInput).confidence ≤ 0.9) := by
  constructor
  · intro input hne hfail
    obtain ⟨A, w, B, hsig, hpos, hA, hall, hbest⟩ := detect_winner input hne
    have hreg : isRegressionOf input = true := by
      unfold isRegressionOf
      simp [hbest]
    have hkw : keywordConfidence input =
        clampConf ((matchCount (lowerDesc input) w : ℝ) /
          ((firstRowKeywordCount : ℝ) + 3)) := by
      unfold keywordConfidence
      rw [hbest]
    refine ⟨A, w, B, hsig, hpos, hA, hall, ?_, ?_, ?_⟩
    · simp [detectRegression, hbest]
    · simp [detectRegression, hbest]
    · simp [detectRegression, confidenceOf, hreg, hfail, hkw]
  · have hbest : bestOf panicExampleInput = some (nullPointerSignal, 2) := by decide
    have hc : (detectRegression panicExampleInput).confidence = 0.3 := by
      rw [confidence_no_failures _ (by decide) (by decide)]
      unfold keywordConfidence
      rw [hbest]
      norm_num [clampConf, show firstRowKeywordCount = 6 from rfl]
    refine ⟨?_, ?_, ?_, ?_⟩
    · simp [detectRegression, hbest, nullPointerSignal]
    · simp [detectRegression, hbest, nullPointerSignal]
    · rw [hc]
    · rw [hc]; norm_num

/-- Witness for C2: the panic scenario instantiates the general winner
statement, its two hypotheses holding by computation. -/
theorem keyword_winner_first_highest_witness :
    scoredRows (lowerDesc panicExampleInput) ≠ [] ∧
    failCount (runsOf panicExampleInput) = 0 ∧
    (∃ A w B,
      regressionSignals = A ++ w :: B ∧
      0 < matchCount (lowerDesc panicExampleInput) w ∧
      (∀ s ∈ A, matchCount (lowerDesc panicExampleInput) s <
        matchCount (lowerDesc panicExampleInput) w) ∧
      (∀ s ∈ regressionSignals,
        matchCount (lowerDesc panicExampleInput) s ≤
          matchCount (lowerDesc panicExampleInput) w) ∧
      (detectRegression panicExampleInput).regressionType = w.regrType ∧
      (detectRegression panicExampleInput).severity = w.severity ∧
      (detectRegression panicExampleInput).confidence =
        clampConf ((matchCount (lowerDesc panicExampleInput) w : ℝ) /
          ((firstRowKeywordCount : ℝ) + 3))) :=
  ⟨by decide, by decide,
   keyword_winner_first_highest.1 panicExampleInput (by decide) (by decide)⟩

/-- A single crash keyword together with a consistently failing history. -/
def keywordHistoryCexInput : DetectRegressionInput :=
  { description := "panic"
    filesChanged := []
    environment := "ci"
    errorMessage := ""
    runHistory := some ["fail", "fail", "fail"] }

/-- Counterexample to C2 as stated: the description "panic" matches one row
with count 1 (so the claimed confidence would be the clamp of 1/9, which is
0.3), yet with the failing run history the result's confidence is 0.75 —
the statistical override breaks the unrestricted claim. -/
theorem keyword_confidence_counterexample :
    scoredRows (lowerDesc keywordHistoryCexInput) ≠ [] ∧
    (∀ s ∈ scoredRows (lowerDesc keywordHistoryCexInput), s.2 = 1) ∧
    (detectRegression keywordHistoryCexInput).confidence = 3 / 4 ∧
    ∀ c : ℕ, c = 1 →
      clampConf ((c : ℝ) / ((firstRowKeywordCount : ℝ) + 3)) ≠ 3 / 4 := by
  have hbest : bestOf keywordHistoryCexInput = some (crashSignal, 1) := by decide
  have hkw : keywordConfidence keywordHistoryCexInput = 0.3 := by
    unfold keywordConfidence
    rw [hbest]
    norm_num [clampConf, show firstRowKeywordCount = 6 from rfl]
  have hstat : runStatConfidence (runsOf keywordHistoryCexInput) = 3 / 4 := by
    rw [show runStatConfidence (runsOf keywordHistoryCexInput) = wilsonLowerBound 3 3 1 from rfl,
      wilson_3_3]
  have hreg : isRegressionOf keywordHistoryCexInput = true := by decide
  have hlen : 0 < (runsOf keywordHistoryCexInput).length := by decide
  have hfail : 0 < failCount (runsOf keywordHistoryCexInput) := by decide
  refine ⟨by decide, by decide, ?_, ?_⟩
  · simp only [detectRegression, confidenceOf, hreg, hlen, hfail, and_self, if_true, hkw, hstat]
    rw [if_pos (by norm_num)]
    norm_num
  · intro c hc
    rw [hc]
    norm_num [clampConf, show firstRowKeywordCount = 6 from rfl]

end LaasLadybug
